import Mathlib

/-!
Verification of the service_topo_agent repository.

This file gives a shallow embedding, in Lean 4, of the parts of the
repository that the specification's claims are about:

* the Python string helpers used by the nodes (`str.strip`, `str.replace`,
  `str.lower`, the `in` substring test);
* the standard orchestrator state machine (`src/agent.py` together with the
  node classes in `src/nodes/`), as an explicit fuel-bounded step function
  whose fuel models LangGraph's `recursion_limit` (10 in `Text2CypherAgent.run`);
* the enhanced orchestrator (`src/enhanced_agent.py`,
  `src/nodes/enhanced_cypher_generator.py`) together with the vector/cache
  store (`src/database/vector_db_manager.py`);
* the similarity engine (`EmbeddingClient.calculate_similarity` in
  `src/tools/embedding_client.py`).

Modelling conventions:

* Python floats are modelled as real numbers (`ℝ`); IEEE NaN results
  (which arise in the source from 0/0 divisions inside scipy/numpy) are
  modelled explicitly as `Option.none`, so a branch of the source that
  produces NaN returns `none` and a branch producing an ordinary float
  returns `some x`.
* A Python `raise` is modelled with `Except.error`.
* External oracles (the LLM, the Neo4j driver, the embedding service, the
  wall clock, Python's `hash`) are parameters of the definitions.
-/

/-! ## Python string primitives -/

/-- The ASCII whitespace characters stripped by Python's `str.strip()`
(`str.strip` also strips other Unicode whitespace, which never occurs in
the strings handled by this code base). -/
def pyIsSpace (c : Char) : Bool :=
  c = ' ' || c = '\t' || c = '\n' || c = '\r' || c = '\x0b' || c = '\x0c'

/-- Python `str.strip()`: drop leading and trailing whitespace. -/
def pyStrip (s : String) : String :=
  String.mk (((s.toList.dropWhile pyIsSpace).reverse.dropWhile pyIsSpace).reverse)

/-- Auxiliary scanner for Python `str.replace`: replaces non-overlapping
occurrences of `pat` from left to right.  The fuel is the length of the
input list, which suffices because each step consumes at least one
character (`pat` is nonempty at every call site of the source). -/
def pyReplaceAux (pat rep : List Char) : Nat → List Char → List Char
  | 0, l => l
  | _ + 1, [] => []
  | fuel + 1, c :: rest =>
    if pat.isPrefixOf (c :: rest) && !pat.isEmpty then
      rep ++ pyReplaceAux pat rep fuel ((c :: rest).drop pat.length)
    else
      c :: pyReplaceAux pat rep fuel rest

/-- Python `s.replace(pat, rep)` (for nonempty `pat`, the only case the
source exercises). -/
def pyReplace (s pat rep : String) : String :=
  String.mk (pyReplaceAux pat.toList rep.toList s.toList.length s.toList)

/-- Python `str.lower()` (ASCII; the validator responses the source
lowercases are plain ASCII tokens). -/
def pyLower (s : String) : String :=
  String.mk (s.toList.map Char.toLower)

/-- Python's substring test `needle in hay`. -/
def pyContains (hay needle : String) : Bool :=
  (hay.toList.tails).any (fun t => needle.toList.isPrefixOf t)

/-! ## Conversation messages and graph state

`GraphState` is the TypedDict of `src/agent_state.py`.  Keys that are
absent from the initial state dict (`generation`, `validation_result`,
`summary`) are modelled as `Option`s initialised to `none`; `run`
initialises `messages` and `retries` explicitly. -/

/-- A LangChain message: `HumanMessage`, `AIMessage` or `ToolMessage`. -/
inductive Msg where
  | human (content : String)
  | ai (content : String)
  | tool (content : String)
deriving DecidableEq, Repr

/-- The graph state of `src/agent_state.py`. -/
structure GraphState where
  messages : List Msg
  generation : Option String
  retries : Nat
  validation_result : Option String
  summary : Option String
deriving DecidableEq, Repr

/-! ## The standard agent's nodes (`src/nodes/`)

Each node is a function of the oracle's raw response and the current
state, returning the updated state (LangGraph merges the returned dict
into the state; the `messages` key appends). -/

/-- Model of `CypherGeneratorNode.generate` (src/nodes/cypher_generator.py:81):
`response.content.strip().replace("```cypher", "").replace("```", "").strip()`. -/
def cleanGeneration (raw : String) : String :=
  pyStrip (pyReplace (pyReplace (pyStrip raw) "```cypher" "") "```" "")

/-- Model of `CypherGeneratorNode.generate`: records the cleaned candidate and
increments the retry counter (`state.get("retries", 0) + 1`). -/
def generateNode (raw : String) (st : GraphState) : GraphState :=
  { st with generation := some (cleanGeneration raw), retries := st.retries + 1 }

/-- Model of `CypherValidatorNode.validate` (src/nodes/cypher_validator.py:51-57):
lowercases and strips the oracle's response and reports `"invalid"` when it
contains the substring `"invalid"`, else `"valid"`. -/
def validateNode (raw : String) (st : GraphState) : GraphState :=
  let vr := if pyContains (pyLower (pyStrip raw)) "invalid" then "invalid" else "valid"
  { st with validation_result := some vr }

/-- The outcome of the Neo4j query oracle: a successful (already
JSON-serialised) result set, or a raised error with message `e`. -/
inductive ExecOut where
  | success (json : String)
  | failure (err : String)
deriving DecidableEq, Repr

/-- Model of `QueryExecutorNode.execute` (src/nodes/query_executor.py): on success
appends a `ToolMessage` with the serialised result, on failure appends a
`ToolMessage` reading `"Query execution failed with error: " ++ e`. -/
def executeNode (res : ExecOut) (st : GraphState) : GraphState :=
  { st with messages := st.messages ++
      [Msg.tool (match res with
        | ExecOut.success js => js
        | ExecOut.failure e => "Query execution failed with error: " ++ e)] }

/-- Model of `SummarizerNode.summarize` (src/nodes/summarizer_node.py): stores the
stripped oracle response as the summary. -/
def summarizeNode (raw : String) (st : GraphState) : GraphState :=
  { st with summary := some (pyStrip raw) }

/-- Model of `Text2CypherAgent.decide_after_validation` (src/agent.py:89-100):
on `"invalid"` appends a corrective `AIMessage` and routes to
`"regenerate"`, else routes to `"execute"`. -/
def decide_after_validation (st : GraphState) : String × GraphState :=
  if st.validation_result = some "invalid" then
    ("regenerate",
      { st with messages := st.messages ++
          [Msg.ai "The previously generated query has invalid syntax. Please generate a new, syntactically correct query."] })
  else
    ("execute", st)

/-- Model of `Text2CypherAgent.decide_after_execution` (src/agent.py:102-121):
if the last message is a `ToolMessage` containing `"Query execution failed"`,
route to `"end"` when `retries >= 3` and otherwise append a corrective
`AIMessage` and route to `"regenerate"`; otherwise route to `"summarize"`. -/
def decide_after_execution (st : GraphState) : String × GraphState :=
  match st.messages.getLast? with
  | some (Msg.tool c) =>
    if pyContains c "Query execution failed" then
      if st.retries ≥ 3 then ("end", st)
      else
        ("regenerate",
          { st with messages := st.messages ++
              [Msg.ai ("The query execution failed. Please fix it. Error: " ++ c)] })
    else ("summarize", st)
  | _ => ("summarize", st)

/-- The nodes of the compiled LangGraph workflow of `Text2CypherAgent`. -/
inductive Node where
  | generator
  | validator
  | executor
  | summarizer
deriving DecidableEq, Repr

/-- How an invocation of the compiled graph can fail: LangGraph raises
`GraphRecursionError` when the superstep budget (`recursion_limit`) is
exhausted before `END` is reached. -/
inductive RunErr where
  | recursionLimit
deriving DecidableEq, Repr

/-- The compiled graph of `Text2CypherAgent._build_graph`, run as a
fuel-bounded step function.  Each node execution is one LangGraph
superstep and consumes one unit of fuel; the oracles are indexed by the
remaining fuel, which is distinct at every call.  Reaching `END` yields
`.ok`; running out of fuel models `GraphRecursionError`. -/
def runStd (gen val sum : Nat → String) (execRes : Nat → ExecOut) :
    Nat → Node → GraphState → Except RunErr GraphState
  | 0, _, _ => Except.error RunErr.recursionLimit
  | fuel + 1, Node.generator, st =>
    runStd gen val sum execRes fuel Node.validator (generateNode (gen (fuel + 1)) st)
  | fuel + 1, Node.validator, st =>
    let st1 := validateNode (val (fuel + 1)) st
    let r := decide_after_validation st1
    if r.1 = "regenerate" then
      runStd gen val sum execRes fuel Node.generator r.2
    else
      runStd gen val sum execRes fuel Node.executor r.2
  | fuel + 1, Node.executor, st =>
    let st1 := executeNode (execRes (fuel + 1)) st
    let r := decide_after_execution st1
    if r.1 = "end" then Except.ok r.2
    else if r.1 = "regenerate" then
      runStd gen val sum execRes fuel Node.generator r.2
    else
      runStd gen val sum execRes fuel Node.summarizer r.2
  | fuel + 1, Node.summarizer, st =>
    Except.ok (summarizeNode (sum (fuel + 1)) st)

/-- Conversion of the caller-supplied history of `{"role", "content"}`
dicts into LangChain messages (`Text2CypherAgent.run`, src/agent.py:127-133);
roles other than `"user"`/`"agent"` are dropped. -/
def toMessages (history : List (String × String)) : List Msg :=
  history.filterMap (fun p =>
    if p.1 = "user" then some (Msg.human p.2)
    else if p.1 = "agent" then some (Msg.ai p.2)
    else none)

/-- The response dict assembled by `Text2CypherAgent.run` (src/agent.py:151-155). -/
structure TurnResult where
  summary : String
  generated_cypher : Option String
  updated_history : List (String × String)
deriving DecidableEq, Repr

/-- The initial state built by `Text2CypherAgent.run` (src/agent.py:136-138):
the converted history plus the new user question, with `retries = 0`. -/
def mkInitState (history : List (String × String)) (new_query : String) : GraphState :=
  ⟨toMessages history ++ [Msg.human new_query], none, 0, none, none⟩

/-- Model of `Text2CypherAgent.run` (src/agent.py:123-155): invokes the graph with
`recursion_limit = 10` and surfaces the summary, with the fallback
`"I'm sorry, I couldn't process that."` when the final state carries none.
A `GraphRecursionError` from `invoke` propagates (`Except.error`). -/
def runTurn (gen val sum : Nat → String) (execRes : Nat → ExecOut)
    (history : List (String × String)) (new_query : String) : Except RunErr TurnResult :=
  match runStd gen val sum execRes 10 Node.generator (mkInitState history new_query) with
  | Except.error e => Except.error e
  | Except.ok fs =>
    let summary := fs.summary.getD "I'm sorry, I couldn't process that."
    Except.ok ⟨summary, fs.generation,
      history ++ [("user", new_query), ("agent", summary)]⟩

/-- Per-node fuel bound used to prove the retry-counter invariant: the
number of generator executions a terminating run can still perform is
limited by the remaining supersteps. -/
def nodeSlack : Node → Nat
  | Node.generator => 1
  | Node.validator => 2
  | Node.executor => 1
  | Node.summarizer => 0

/-! ## Concrete oracles used for witnesses and scenario runs -/

def oGen : Nat → String := fun _ => "MATCH (s:Service) RETURN s"

def oValOk : Nat → String := fun _ => "valid"

def oSum : Nat → String := fun _ => "There are no services."

def oExecOk : Nat → ExecOut := fun _ => ExecOut.success "[]"

def oExecFail : Nat → ExecOut := fun _ => ExecOut.failure "connection refused"

/-- An execution oracle whose *successful* result set happens to contain
the failure marker string (e.g. a node property reading
"Query execution failed"); `json.dumps` of such a result contains the
marker as a substring. -/
def oExecMarker : Nat → ExecOut := fun _ => ExecOut.success "[\"Query execution failed\"]"

/-- Final state of the one-shot successful scenario (one generation, valid
syntax, successful execution, summary). -/
def stdOkFinal : GraphState :=
  ⟨[Msg.human "q", Msg.tool "[]"], some "MATCH (s:Service) RETURN s", 1,
    some "valid", some "There are no services."⟩

/-- Final state of the three-consecutive-execution-failures scenario. -/
def stdFailFinal : GraphState :=
  ⟨[Msg.human "q",
    Msg.tool "Query execution failed with error: connection refused",
    Msg.ai "The query execution failed. Please fix it. Error: Query execution failed with error: connection refused",
    Msg.tool "Query execution failed with error: connection refused",
    Msg.ai "The query execution failed. Please fix it. Error: Query execution failed with error: connection refused",
    Msg.tool "Query execution failed with error: connection refused"],
    some "MATCH (s:Service) RETURN s", 3, some "valid", none⟩

/-! ## The similarity engine (`EmbeddingClient.calculate_similarity`,
src/tools/embedding_client.py:112-186)

Vectors are lists of reals.  Each supported method is modelled by a helper
returning `Option ℝ`, where `none` models an IEEE NaN result (scipy/numpy
emit NaN, with a warning but without raising, on the 0/0 divisions noted
below).  The dispatcher models the `raise ValueError` of the final `else`
with `Except.error`. -/

noncomputable section

/-- Computes `np.dot(a, b)` on equal-length vectors. -/
def dotList (a b : List ℝ) : ℝ := (List.zipWith (fun x y => x * y) a b).sum

/-- Squared euclidean distance (`scipy.spatial.distance.euclidean` squared). -/
def l2distSq (a b : List ℝ) : ℝ := (List.zipWith (fun x y => (x - y) ^ 2) a b).sum

/-- Computes `scipy.spatial.distance.cityblock`. -/
def l1dist (a b : List ℝ) : ℝ := (List.zipWith (fun x y => |x - y|) a b).sum

/-- Computes `np.mean`. -/
def meanR (v : List ℝ) : ℝ := v.sum / v.length

/-- Sum of squared deviations from the mean. -/
def devSq (v : List ℝ) : ℝ := (v.map (fun x => (x - meanR v) ^ 2)).sum

/-- Sum of products of deviations (the unnormalised covariance; the
`ddof` normalisation of `np.cov` cancels in the correlation quotient). -/
def devDot (a b : List ℝ) : ℝ :=
  (List.zipWith (fun x y => (x - meanR a) * (y - meanR b)) a b).sum

/-- Computes `np.std`. -/
def stdR (v : List ℝ) : ℝ := Real.sqrt (devSq v / v.length)

/-- Python's `np.std(v) == 0` comparison: for an empty `v`, `np.std`
is NaN (with a warning) and the comparison is False, so the test only
succeeds on a nonempty vector of zero deviation. -/
def npStdIsZero (v : List ℝ) : Prop := v ≠ [] ∧ stdR v = 0

instance (v : List ℝ) : Decidable (npStdIsZero v) := Classical.dec _

/-- Binarization `(v > 0).astype(int)`, as a Bool list. -/
def binarize (v : List ℝ) : List Bool := v.map (fun x => decide (0 < x))

/-- Computes `scipy.stats.rankdata` with the default `average` method: the rank of
an entry is the average of the positions its value occupies in sorted
order, i.e. `#{y < x} + (#{y = x} + 1) / 2` (1-based). -/
def rankdata (v : List ℝ) : List ℝ :=
  v.map (fun x =>
    (v.countP (fun y => decide (y < x)) : ℝ) +
      ((v.countP (fun y => decide (y = x)) : ℝ) + 1) / 2)

/-- The `[0, 1]` entry of `np.corrcoef a b`: the Pearson correlation
coefficient, which is NaN (`none`) when either vector has zero squared
deviation (0/0 division), in particular for empty or constant vectors. -/
def corrcoef01 (a b : List ℝ) : Option ℝ :=
  if devSq a = 0 ∨ devSq b = 0 then none
  else some (devDot a b / (Real.sqrt (devSq a) * Real.sqrt (devSq b)))

/-- The `'cosine'` branch: `1 - scipy.spatial.distance.cosine(a, b)`,
i.e. `dot(a,b) / sqrt(dot(a,a) * dot(b,b))`; NaN (`none`) when either
vector has zero norm (scipy's 0/0; in exact arithmetic a zero norm forces
a zero numerator).  scipy's clip of the distance into `[0, 2]` is the
identity here by the Cauchy-Schwarz inequality. -/
def cosineSim (a b : List ℝ) : Option ℝ :=
  if Real.sqrt (dotList a a * dotList b b) = 0 then none
  else some (dotList a b / Real.sqrt (dotList a a * dotList b b))

/-- The `'euclidean'` branch: `1 / (1 + distance)`. -/
def euclideanSim (a b : List ℝ) : Option ℝ :=
  some (1 / (1 + Real.sqrt (l2distSq a b)))

/-- The `'manhattan'` branch: `1 / (1 + distance)`. -/
def manhattanSim (a b : List ℝ) : Option ℝ :=
  some (1 / (1 + l1dist a b))

/-- The `'dot_product'` branch: explicitly guarded normalised dot product,
returning `0.0` when either `np.linalg.norm` is zero. -/
def dotProductSim (a b : List ℝ) : Option ℝ :=
  if Real.sqrt (dotList a a) = 0 ∨ Real.sqrt (dotList b b) = 0 then some 0
  else some (dotList a b / (Real.sqrt (dotList a a) * Real.sqrt (dotList b b)))

/-- The `'pearson'` branch: the explicit `np.std == 0` guard returns
`0.0`, otherwise `np.corrcoef(a, b)[0, 1]`. -/
def pearsonSim (a b : List ℝ) : Option ℝ :=
  if npStdIsZero a ∨ npStdIsZero b then some 0
  else corrcoef01 a b

/-- The `'spearman'` branch: `scipy.stats.spearmanr(a, b)[0]`, i.e. the
Pearson correlation of the tie-averaged ranks; scipy returns NaN for
inputs of size ≤ 1 and for constant inputs (via the 0/0 in the
correlation), and the source's `except` clause is not reached by these
NaN outcomes. -/
def spearmanSim (a b : List ℝ) : Option ℝ :=
  if a.length ≤ 1 then none
  else corrcoef01 (rankdata a) (rankdata b)

/-- The `'jaccard'` branch on binarized vectors, `0.0` for empty union. -/
def jaccardSim (a b : List ℝ) : Option ℝ :=
  let inter := ((List.zipWith and (binarize a) (binarize b)).count true : ℝ)
  let uni := ((List.zipWith or (binarize a) (binarize b)).count true : ℝ)
  if 0 < uni then some (inter / uni) else some 0

/-- The `'hamming'` branch: `1 - np.mean(b1 != b2)` on binarized vectors;
NaN (`none`) on empty vectors (`np.mean` of an empty array is NaN). -/
def hammingSim (a b : List ℝ) : Option ℝ :=
  let mism := List.zipWith (fun p q => decide (p ≠ q)) (binarize a) (binarize b)
  if mism.length = 0 then none
  else some (1 - (mism.count true : ℝ) / (mism.length : ℝ))

/-- Model of `EmbeddingClient.calculate_similarity`
(src/tools/embedding_client.py:112-186): the length-mismatch sentinel
`0.0` precedes the method dispatch; an unknown method raises
`ValueError`. -/
def calculate_similarity (vec1 vec2 : List ℝ) (method : String) :
    Except String (Option ℝ) :=
  if vec1.length ≠ vec2.length then Except.ok (some 0)
  else if method = "cosine" then Except.ok (cosineSim vec1 vec2)
  else if method = "euclidean" then Except.ok (euclideanSim vec1 vec2)
  else if method = "manhattan" then Except.ok (manhattanSim vec1 vec2)
  else if method = "dot_product" then Except.ok (dotProductSim vec1 vec2)
  else if method = "pearson" then Except.ok (pearsonSim vec1 vec2)
  else if method = "spearman" then Except.ok (spearmanSim vec1 vec2)
  else if method = "jaccard" then Except.ok (jaccardSim vec1 vec2)
  else if method = "hamming" then Except.ok (hammingSim vec1 vec2)
  else Except.error ("Unknown similarity method: " ++ method)

end

/-! ## The embedding store (`src/database/vector_db_manager.py`)

A row of the `vector_embeddings` table and the match dicts built by
`VectorDBManager.find_similar_examples` (src/database/vector_db_manager.py:85-137).
The SQL `WHERE text_type = 'example'` clause is a filter over the rows;
the embedding oracle is a parameter (`get_embedding` returns `[]` on
failure). -/

structure VERow where
  text_type : String
  text_content : String
  cypher_query : Option String
  embedding_data : List ℝ
  similarity_threshold : ℝ

structure ExampleMatch where
  text_content : String
  cypher_query : Option String
  similarity : ℝ
  threshold : ℝ

noncomputable section

/-- The accumulation loop of `find_similar_examples` (lines 122-133): a
similarity is computed against every row, rows whose similarity is at
least `min_similarity` are kept in stored order (a NaN similarity fails
the `>=` comparison and is dropped), and a `ValueError` from
`calculate_similarity` propagates. -/
def simsLoopEx (qe : List ℝ) (minSim : ℝ) (method : String) :
    List VERow → Except String (List ExampleMatch)
  | [] => Except.ok []
  | r :: rs =>
    match calculate_similarity qe r.embedding_data method with
    | Except.error e => Except.error e
    | Except.ok s =>
      match simsLoopEx qe minSim method rs with
      | Except.error e => Except.error e
      | Except.ok rest =>
        match s with
        | some x =>
          if minSim ≤ x then
            Except.ok (⟨r.text_content, r.cypher_query, x, r.similarity_threshold⟩ :: rest)
          else Except.ok rest
        | none => Except.ok rest

/-- The comparator of `similarities.sort(key=lambda x: x['similarity'],
reverse=True)`: Python's stable sort in descending similarity order. -/
def simLe (a b : ExampleMatch) : Bool := decide (b.similarity ≤ a.similarity)

/-- Model of `VectorDBManager.find_similar_examples`
(src/database/vector_db_manager.py:85-137). -/
def find_similar_examples (emb : String → List ℝ) (rows : List VERow)
    (query : String) (top_k : Nat) (min_similarity : ℝ) (method : String) :
    Except String (List ExampleMatch) :=
  let exRows := rows.filter (fun r => r.text_type == "example")
  if exRows.isEmpty then Except.ok []
  else
    let qe := emb query
    if qe.isEmpty then Except.ok []
    else
      match simsLoopEx qe min_similarity method exRows with
      | Except.error e => Except.error e
      | Except.ok sims => Except.ok ((sims.mergeSort simLe).take top_k)

end

/-! ## The query cache (`VectorDBManager.cache_query_result`,
src/database/vector_db_manager.py:191-232)

A row of the `query_cache` table.  `question_hash` is `str(hash(question))`
with Python's opaque `hash`, modelled as an oracle parameter; the SQL
`CURRENT_TIMESTAMP` is the `now` parameter. -/

structure CacheRow where
  question_hash : String
  question : String
  generated_cypher : String
  final_summary : String
  embedding_data : List ℝ
  similarity_score : Option ℝ
  access_count : Nat
  created_at : Nat
  last_accessed : Nat

/-- The `UPDATE ... WHERE id = ?` statement applied to the row fetched by
`SELECT ... WHERE question_hash = ?` (the `UNIQUE` constraint on
`question_hash` guarantees at most one match; `fetchone` yields the first):
bump `access_count`, refresh `last_accessed`, leave everything else. -/
def updateCacheRow (h : String) (now : Nat) : List CacheRow → List CacheRow
  | [] => []
  | r :: rs =>
    if r.question_hash == h then
      { r with access_count := r.access_count + 1, last_accessed := now } :: rs
    else r :: updateCacheRow h now rs

/-- Model of `VectorDBManager.cache_query_result`: returns `False` without touching
the table when the embedding oracle fails; otherwise upserts keyed on the
question hash — update the existing row's `access_count`/`last_accessed`,
or insert a fresh row with `access_count = 1`. -/
def cache_query_result (pyHash : String → String) (emb : String → List ℝ) (now : Nat)
    (question generated_cypher final_summary : String) (similarity_score : Option ℝ)
    (rows : List CacheRow) : Bool × List CacheRow :=
  let question_hash := pyHash question
  let embedding := emb question
  if embedding.isEmpty then (false, rows)
  else if rows.any (fun r => r.question_hash == question_hash) then
    (true, updateCacheRow question_hash now rows)
  else
    (true, rows ++ [⟨question_hash, question, generated_cypher, final_summary,
      embedding, similarity_score, 1, now, now⟩])

/-! ## The semantic cache lookup and the enhanced prompt manager

`VectorDBManager.find_cached_result` (src/database/vector_db_manager.py:234-285),
`VectorDBManager.find_similar_feedback` (lines 139-189) and the parts of
`EnhancedPromptManager` (src/prompts/enhanced_prompt_manager.py) that the
enhanced generator invokes.  The prompt *text* itself is out of scope
(§1 of the spec); what is modelled is which store lookups the prompt
construction performs (so that their failures propagate exactly as in the
source) and the metadata record whose `avg_example_similarity` is stored
in the cache. -/

/-- The best-match dict assembled by `find_cached_result`. -/
structure CacheHit where
  question : String
  generated_cypher : String
  final_summary : String
  similarity : ℝ

structure FeedbackMatch where
  text_content : String
  cypher_query : Option String
  similarity : ℝ

noncomputable section

/-- The scan of `find_cached_result`: keeps the highest-similarity entry
at or above `min_similarity` (strictly improving on the running best,
which starts at `0`; a NaN similarity fails both comparisons). -/
def findCachedLoop (qe : List ℝ) (minSim : ℝ) (method : String) :
    List CacheRow → Option CacheHit × ℝ → Except String (Option CacheHit × ℝ)
  | [], acc => Except.ok acc
  | r :: rs, acc =>
    match calculate_similarity qe r.embedding_data method with
    | Except.error e => Except.error e
    | Except.ok s =>
      match s with
      | some v =>
        if minSim ≤ v ∧ acc.2 < v then
          findCachedLoop qe minSim method rs
            (some ⟨r.question, r.generated_cypher, r.final_summary, v⟩, v)
        else findCachedLoop qe minSim method rs acc
      | none => findCachedLoop qe minSim method rs acc

/-- Model of `VectorDBManager.find_cached_result` (default `min_similarity = 0.9`). -/
def find_cached_result (emb : String → List ℝ) (rows : List CacheRow)
    (question : String) (min_similarity : ℝ) (method : String) :
    Except String (Option CacheHit) :=
  if rows.isEmpty then Except.ok none
  else
    let qe := emb question
    if qe.isEmpty then Except.ok none
    else
      match findCachedLoop qe min_similarity method rows (none, 0) with
      | Except.error e => Except.error e
      | Except.ok acc => Except.ok acc.1

/-- The accumulation loop of `find_similar_feedback` (lines 174-185). -/
def simsLoopFb (qe : List ℝ) (minSim : ℝ) (method : String) :
    List VERow → Except String (List FeedbackMatch)
  | [] => Except.ok []
  | r :: rs =>
    match calculate_similarity qe r.embedding_data method with
    | Except.error e => Except.error e
    | Except.ok s =>
      match simsLoopFb qe minSim method rs with
      | Except.error e => Except.error e
      | Except.ok rest =>
        match s with
        | some x =>
          if minSim ≤ x then
            Except.ok (⟨r.text_content, r.cypher_query, x⟩ :: rest)
          else Except.ok rest
        | none => Except.ok rest

def fbLe (a b : FeedbackMatch) : Bool := decide (b.similarity ≤ a.similarity)

/-- Model of `VectorDBManager.find_similar_feedback`
(defaults `top_k = 3`, `min_similarity = 0.8`). -/
def find_similar_feedback (emb : String → List ℝ) (rows : List VERow)
    (query : String) (top_k : Nat) (min_similarity : ℝ) (method : String) :
    Except String (List FeedbackMatch) :=
  let fbRows := rows.filter (fun r => r.text_type == "feedback")
  if fbRows.isEmpty then Except.ok []
  else
    let qe := emb query
    if qe.isEmpty then Except.ok []
    else
      match simsLoopFb qe min_similarity method fbRows with
      | Except.error e => Except.error e
      | Except.ok sims => Except.ok ((sims.mergeSort fbLe).take top_k)

/-- One entry of `EnhancedPromptManager.get_dynamic_examples`. -/
structure DynExample where
  natural_language : String
  cypher : Option String
  similarity : ℝ

/-- Model of `EnhancedPromptManager.get_dynamic_examples`
(src/prompts/enhanced_prompt_manager.py:37-80): dynamic matches
(`top_k = max_examples`, `min_similarity = 0.7`), padded up to
`max_examples` with static examples carrying similarity `0.0`. -/
def get_dynamic_examples (emb : String → List ℝ) (rows : List VERow)
    (staticExamples : List (String × String)) (question : String)
    (maxExamples : Nat) (method : String) : Except String (List DynExample) :=
  match find_similar_examples emb rows question maxExamples (7 / 10) method with
  | Except.error e => Except.error e
  | Except.ok sims =>
    let examples := sims.map (fun x => (⟨x.text_content, x.cypher_query, x.similarity⟩ : DynExample))
    if examples.length < maxExamples then
      Except.ok (examples ++ (staticExamples.take (maxExamples - examples.length)).map
        (fun p => (⟨p.1, some p.2, 0⟩ : DynExample)))
    else Except.ok examples

/-- The metadata dict of `EnhancedPromptManager.get_prompt_metadata`
(src/prompts/enhanced_prompt_manager.py:201-226). -/
structure PromptMetadata where
  examples_used : Nat
  feedback_used : Nat
  example_similarities : List ℝ
  feedback_similarities : List ℝ
  avg_example_similarity : ℝ
  avg_feedback_similarity : ℝ

def get_prompt_metadata (emb : String → List ℝ) (rows : List VERow)
    (staticExamples : List (String × String)) (question : String) (method : String) :
    Except String PromptMetadata :=
  match get_dynamic_examples emb rows staticExamples question 5 method with
  | Except.error e => Except.error e
  | Except.ok examples =>
    match find_similar_feedback emb rows question 3 (8 / 10) method with
    | Except.error e => Except.error e
    | Except.ok feedback =>
      Except.ok
        ⟨examples.length, feedback.length,
          examples.map (fun x => x.similarity), feedback.map (fun x => x.similarity),
          if examples.isEmpty then 0
            else (examples.map (fun x => x.similarity)).sum / examples.length,
          if feedback.isEmpty then 0
            else (feedback.map (fun x => x.similarity)).sum / feedback.length⟩

/-- The store lookups performed by
`EnhancedPromptManager.create_enhanced_prompt`
(src/prompts/enhanced_prompt_manager.py:144-199) with the generator's
arguments (`use_dynamic_examples=True`, `include_feedback=True`): the
assembled prompt text is out of scope, but a `ValueError` raised by the
underlying similarity computations propagates to the caller, which this
model preserves. -/
def createEnhancedPromptChecks (emb : String → List ℝ) (rows : List VERow)
    (staticExamples : List (String × String)) (question : String) (method : String) :
    Except String Unit :=
  match get_dynamic_examples emb rows staticExamples question 5 method with
  | Except.error e => Except.error e
  | Except.ok _ =>
    match find_similar_feedback emb rows question 3 (8 / 10) method with
    | Except.error e => Except.error e
    | Except.ok _ => Except.ok ()

end

/-! ## The enhanced orchestrator (`src/enhanced_agent.py`,
`src/nodes/enhanced_cypher_generator.py`)

The graph state carries the extra keys the enhanced generator writes
(`cache_hit`, `cache_similarity`, `similarity_method`, `prompt_metadata`);
the durable store (the `vector_embeddings` and `query_cache` tables) is
threaded separately because it persists even when the turn raises. -/

structure EState where
  messages : List Msg
  generation : Option String
  retries : Nat
  validation_result : Option String
  summary : Option String
  cache_hit : Bool
  cache_similarity : Option ℝ
  similarity_method : Option String
  prompt_metadata : Option PromptMetadata

structure VectorDB where
  vectors : List VERow
  cache : List CacheRow

noncomputable section

/-- Model of `EnhancedCypherGeneratorNode.generate`
(src/nodes/enhanced_cypher_generator.py:20-102).  Note three properties
the claims are about: a turn whose latest message is not a `HumanMessage`
(every regeneration, since the router appended a corrective `AIMessage`)
returns the state unchanged; on a cache miss the LLM's response is only
whitespace-stripped (`response.content.strip()`, no fence removal) and
the retry counter is never touched; and `cache_query_result` is invoked
*here*, before execution, with `final_summary=""` (the source comment
says "Will be filled by summarizer", but no code ever does). -/
def enhancedGenerate (emb : String → List ℝ) (pyHash : String → String)
    (staticExamples : List (String × String)) (enable_cache : Bool) (method : String)
    (now : Nat) (llmResp : Except String String) (st : EState) (db : VectorDB) :
    Except String (EState × VectorDB) :=
  let generatePath : String → Except String (EState × VectorDB) := fun question =>
    match createEnhancedPromptChecks emb db.vectors staticExamples question method with
    | Except.error e => Except.error e
    | Except.ok _ =>
      match get_prompt_metadata emb db.vectors staticExamples question method with
      | Except.error e => Except.error e
      | Except.ok md =>
        match llmResp with
        | Except.error _ =>
          Except.ok ({ st with
            messages := st.messages ++ [Msg.ai "Error generating Cypher query"],
            generation := some "" }, db)
        | Except.ok resp =>
          let generated := pyStrip resp
          let st2 := { st with
            messages := st.messages ++ [Msg.ai generated],
            generation := some generated,
            prompt_metadata := some md,
            similarity_method := some method }
          if enable_cache then
            Except.ok (st2, { db with cache :=
              (cache_query_result pyHash emb now question generated ""
                (some md.avg_example_similarity) db.cache).2 })
          else Except.ok (st2, db)
  match st.messages.getLast? with
  | none => Except.ok (st, db)
  | some latest =>
    match latest with
    | Msg.human question =>
      if enable_cache then
        match find_cached_result emb db.cache question (9 / 10) method with
        | Except.error e => Except.error e
        | Except.ok (some hit) =>
          Except.ok ({ st with
            messages := st.messages ++ [Msg.ai hit.generated_cypher],
            generation := some hit.generated_cypher,
            summary := some hit.final_summary,
            cache_hit := true,
            cache_similarity := some hit.similarity,
            similarity_method := some method }, db)
        | Except.ok none => generatePath question
      else generatePath question
    | _ => Except.ok (st, db)

/-- Model of `CypherValidatorNode.validate` on the enhanced state. -/
def validateNodeE (raw : String) (st : EState) : EState :=
  let vr := if pyContains (pyLower (pyStrip raw)) "invalid" then "invalid" else "valid"
  { st with validation_result := some vr }

/-- Model of `QueryExecutorNode.execute` on the enhanced state. -/
def executeNodeE (res : ExecOut) (st : EState) : EState :=
  { st with messages := st.messages ++
      [Msg.tool (match res with
        | ExecOut.success js => js
        | ExecOut.failure e => "Query execution failed with error: " ++ e)] }

/-- Model of `SummarizerNode.summarize` on the enhanced state. -/
def summarizeNodeE (raw : String) (st : EState) : EState :=
  { st with summary := some (pyStrip raw) }

/-- Model of `EnhancedText2CypherAgent.decide_after_validation`
(src/enhanced_agent.py:133-145), identical logic to the standard agent. -/
def edecide_after_validation (st : EState) : String × EState :=
  if st.validation_result = some "invalid" then
    ("regenerate",
      { st with messages := st.messages ++
          [Msg.ai "The previously generated query has invalid syntax. Please generate a new, syntactically correct query."] })
  else
    ("execute", st)

/-- Model of `EnhancedText2CypherAgent.decide_after_execution`
(src/enhanced_agent.py:147-167), identical logic to the standard agent;
note that it reads `state["retries"]`, which nothing in the enhanced
agent ever increments. -/
def edecide_after_execution (st : EState) : String × EState :=
  match st.messages.getLast? with
  | some (Msg.tool c) =>
    if pyContains c "Query execution failed" then
      if st.retries ≥ 3 then ("end", st)
      else
        ("regenerate",
          { st with messages := st.messages ++
              [Msg.ai ("The query execution failed. Please fix it. Error: " ++ c)] })
    else ("summarize", st)
  | _ => ("summarize", st)

/-- How an enhanced turn can fail: the recursion limit, or a Python
exception propagating out of a node (e.g. a `ValueError` from the
similarity engine). -/
inductive ERunErr where
  | recursionLimit
  | raised (msg : String)

/-- The compiled graph of `EnhancedText2CypherAgent._build_graph` in the
default `standard` run mode, with the durable store threaded through
(it persists even when the run raises).  The `now` timestamp passed to
the cache write is the remaining fuel, which is distinct at every step. -/
def runEnh (emb : String → List ℝ) (pyHash : String → String)
    (staticExamples : List (String × String)) (enable_cache : Bool) (method : String)
    (llmResp : Except String String) (val sum : Nat → String) (execRes : Nat → ExecOut) :
    Nat → Node → EState → VectorDB → Except ERunErr EState × VectorDB
  | 0, _, _, db => (Except.error ERunErr.recursionLimit, db)
  | fuel + 1, Node.generator, st, db =>
    match enhancedGenerate emb pyHash staticExamples enable_cache method (fuel + 1)
        llmResp st db with
    | Except.error e => (Except.error (ERunErr.raised e), db)
    | Except.ok (st2, db2) =>
      runEnh emb pyHash staticExamples enable_cache method llmResp val sum execRes
        fuel Node.validator st2 db2
  | fuel + 1, Node.validator, st, db =>
    let st1 := validateNodeE (val (fuel + 1)) st
    let r := edecide_after_validation st1
    if r.1 = "regenerate" then
      runEnh emb pyHash staticExamples enable_cache method llmResp val sum execRes
        fuel Node.generator r.2 db
    else
      runEnh emb pyHash staticExamples enable_cache method llmResp val sum execRes
        fuel Node.executor r.2 db
  | fuel + 1, Node.executor, st, db =>
    let st1 := executeNodeE (execRes (fuel + 1)) st
    let r := edecide_after_execution st1
    if r.1 = "end" then (Except.ok r.2, db)
    else if r.1 = "regenerate" then
      runEnh emb pyHash staticExamples enable_cache method llmResp val sum execRes
        fuel Node.generator r.2 db
    else
      runEnh emb pyHash staticExamples enable_cache method llmResp val sum execRes
        fuel Node.summarizer r.2 db
  | fuel + 1, Node.summarizer, st, db =>
    (Except.ok (summarizeNodeE (sum (fuel + 1)) st), db)

/-- The initial enhanced-turn state for a fresh question
(`EnhancedText2CypherAgent.run`, src/enhanced_agent.py:169-186). -/
def mkInitE (q : String) : EState :=
  ⟨[Msg.human q], none, 0, none, none, false, none, none, none⟩

end

/-- Identity hash oracle for concrete runs (`hash` is opaque). -/
def pyHashC : String → String := fun s => s

/-- Constant embedding oracle for concrete runs. -/
noncomputable def embC : String → List ℝ := fun _ => [1]

/-! ## Theorems -/

/-! ## Helper lemmas about the standard machine -/

theorem generateNode_retries (raw : String) (st : GraphState) :
    (generateNode raw st).retries = st.retries + 1 := rfl

theorem validateNode_retries (raw : String) (st : GraphState) :
    (validateNode raw st).retries = st.retries := rfl

theorem executeNode_retries (res : ExecOut) (st : GraphState) :
    (executeNode res st).retries = st.retries := rfl

theorem summarizeNode_retries (raw : String) (st : GraphState) :
    (summarizeNode raw st).retries = st.retries := rfl

theorem decide_after_validation_retries (st : GraphState) :
    (decide_after_validation st).2.retries = st.retries := by
  unfold decide_after_validation
  split <;> rfl

theorem decide_after_execution_retries (st : GraphState) :
    (decide_after_execution st).2.retries = st.retries := by
  unfold decide_after_execution
  split
  · split
    · split <;> rfl
    · rfl
  · rfl

/-- Core invariant: a run of the compiled graph that reaches `END` within
`fuel` supersteps increases the retry counter by less than half the fuel
(each regeneration costs at least a generator and a validator superstep,
and ending costs at least an executor superstep). -/
theorem runStd_retries_le (gen val sum : Nat → String) (execRes : Nat → ExecOut) :
    ∀ fuel node st fs, runStd gen val sum execRes fuel node st = Except.ok fs →
      2 * fs.retries + nodeSlack node ≤ 2 * st.retries + fuel := by
  intro fuel
  induction fuel with
  | zero =>
    intro node st fs h
    simp [runStd] at h
  | succ f ih =>
    intro node st fs h
    cases node with
    | generator =>
      have h2 : runStd gen val sum execRes f Node.validator
          (generateNode (gen (f + 1)) st) = Except.ok fs := by
        simpa [runStd] using h
      have := ih Node.validator (generateNode (gen (f + 1)) st) fs h2
      simp [nodeSlack, generateNode_retries] at this ⊢
      omega
    | validator =>
      rw [runStd] at h
      by_cases hr :
          (decide_after_validation (validateNode (val (f + 1)) st)).1 = "regenerate"
      · rw [if_pos hr] at h
        have := ih Node.generator _ fs h
        rw [decide_after_validation_retries, validateNode_retries] at this
        simp [nodeSlack] at this ⊢
        omega
      · rw [if_neg hr] at h
        have := ih Node.executor _ fs h
        rw [decide_after_validation_retries, validateNode_retries] at this
        simp [nodeSlack] at this ⊢
        omega
    | executor =>
      rw [runStd] at h
      by_cases he : (decide_after_execution (executeNode (execRes (f + 1)) st)).1 = "end"
      · rw [if_pos he] at h
        have hfs : fs = (decide_after_execution (executeNode (execRes (f + 1)) st)).2 :=
          (Except.ok.injEq _ _).mp h.symm
        subst hfs
        rw [decide_after_execution_retries, executeNode_retries]
        simp only [nodeSlack]
        omega
      · rw [if_neg he] at h
        by_cases hg :
            (decide_after_execution (executeNode (execRes (f + 1)) st)).1 = "regenerate"
        · rw [if_pos hg] at h
          have := ih Node.generator _ fs h
          rw [decide_after_execution_retries, executeNode_retries] at this
          simp [nodeSlack] at this ⊢
          omega
        · rw [if_neg hg] at h
          have := ih Node.summarizer _ fs h
          rw [decide_after_execution_retries, executeNode_retries] at this
          simp [nodeSlack] at this ⊢
          omega
    | summarizer =>
      have hfs : fs = summarizeNode (sum (f + 1)) st := by
        have h2 : (Except.ok (summarizeNode (sum (f + 1)) st) : Except RunErr GraphState) =
            Except.ok fs := by
          simpa [runStd] using h
        exact ((Except.ok.injEq _ _).mp h2).symm
      subst hfs
      rw [summarizeNode_retries]
      simp only [nodeSlack]
      omega

/-- C3: in every turn of the standard agent (initial retries `0`,
`recursion_limit` 10), a run that reaches `DONE` has `retries ≤ 3 + 1`,
no matter how the validation and execution oracles answer. -/
theorem claim_C3_retries_at_done_le_four
    (gen val sum : Nat → String) (execRes : Nat → ExecOut)
    (st : GraphState) (fs : GraphState)
    (h0 : st.retries = 0)
    (h : runStd gen val sum execRes 10 Node.generator st = Except.ok fs) :
    fs.retries ≤ 4 := by
  have := runStd_retries_le gen val sum execRes 10 Node.generator st fs h
  simp [nodeSlack, h0] at this
  omega

/-- If `needle` is a prefix of `hay`, Python's `needle in hay` is true. -/
theorem pyContains_of_startsWith (needle rest : String) :
    pyContains (needle ++ rest) needle = true := by
  unfold pyContains
  rw [List.any_eq_true]
  refine ⟨(needle ++ rest).toList, ?_, ?_⟩
  · rw [List.mem_tails]
  · rw [ List.isPrefixOf_iff_prefix]
    show needle.data <+: (needle ++ rest).data
    rw [String.data_append]
    exact List.prefix_append _ _

/-- Witness for C3 at a concrete input: a successful one-generation run
reaches `DONE` and the theorem bounds its retry counter. -/
theorem claim_C3_witness :
    (mkInitState [] "q").retries = 0 ∧
    runStd oGen oValOk oSum oExecOk 10 Node.generator (mkInitState [] "q") =
      Except.ok stdOkFinal ∧
    stdOkFinal.retries ≤ 4 :=
  ⟨rfl, rfl,
    claim_C3_retries_at_done_le_four oGen oValOk oSum oExecOk
      (mkInitState [] "q") stdOkFinal rfl rfl⟩

/-- Every execution-failure `ToolMessage` contains the failure marker the
router looks for. -/
theorem pyContains_execFailed (e : String) :
    pyContains ("Query execution failed with error: " ++ e) "Query execution failed" = true := by
  have h := pyContains_of_startsWith "Query execution failed" (" with error: " ++ e)
  rwa [← String.append_assoc] at h

/-- C4 (counterexample to the claim as stated): a *successful* execution
whose serialised result set itself contains the marker string
`"Query execution failed"` is routed to `"regenerate"`, not to
`"summarize"`, so "on execution success it always transitions to
SUMMARIZE" is false on the code. -/
theorem claim_C4_counterexample :
    (decide_after_execution (executeNode (ExecOut.success "[\"Query execution failed\"]")
        (mkInitState [] "q"))).1 = "regenerate" ∧
    (decide_after_execution (executeNode (ExecOut.success "[\"Query execution failed\"]")
        (mkInitState [] "q"))).1 ≠ "summarize" :=
  ⟨rfl, by decide⟩

/-- Routing after an execution failure when the retry bound is reached. -/
theorem decide_after_execution_fail_ge (st : GraphState) (e : String)
    (hr : 3 ≤ st.retries) :
    decide_after_execution (executeNode (ExecOut.failure e) st) =
      ("end", executeNode (ExecOut.failure e) st) := by
  unfold decide_after_execution executeNode
  simp [List.getLast?_concat, pyContains_execFailed, hr]

/-- Routing after an execution failure below the retry bound: a corrective
`AIMessage` is appended and the route is `"regenerate"`. -/
theorem decide_after_execution_fail_lt (st : GraphState) (e : String)
    (hr : st.retries < 3) :
    decide_after_execution (executeNode (ExecOut.failure e) st) =
      ("regenerate",
        { st with messages := st.messages ++
            [Msg.tool ("Query execution failed with error: " ++ e),
             Msg.ai ("The query execution failed. Please fix it. Error: Query execution failed with error: " ++ e)] }) := by
  unfold decide_after_execution executeNode
  have hr3 : ¬ (3 ≤ st.retries) := by omega
  simp [List.getLast?_concat, pyContains_execFailed, hr3, ← String.append_assoc]

/-- Routing after a successful execution whose payload does not contain
the failure marker. -/
theorem decide_after_execution_success (st : GraphState) (js : String)
    (h : pyContains js "Query execution failed" = false) :
    decide_after_execution (executeNode (ExecOut.success js) st) =
      ("summarize", executeNode (ExecOut.success js) st) := by
  unfold decide_after_execution executeNode
  simp [List.getLast?_concat, h]

/-- C4 (amended): in the `EXECUTE` state, an execution failure with
`retries ≥ 3` ends the turn (`DONE`, state unchanged except the failure
`ToolMessage`, so no answer is produced); an execution failure with
`retries < 3` appends a corrective instruction and transitions back to
`GENERATE`; a successful execution transitions to `SUMMARIZE` *provided
its serialised result does not itself contain the failure marker*
(the routing is substring-based, see `claim_C4_counterexample`).  Three
consecutive execution failures from a fresh turn end in `DONE` with
`retries = 3` and no answer. -/
theorem claim_C4_execution_failure_policy
    (gen val sum : Nat → String) (execRes : Nat → ExecOut) (f : Nat) (st : GraphState) :
    (∀ e, execRes (f + 1) = ExecOut.failure e →
      (3 ≤ st.retries →
        runStd gen val sum execRes (f + 1) Node.executor st =
          Except.ok (executeNode (ExecOut.failure e) st)) ∧
      (st.retries < 3 →
        runStd gen val sum execRes (f + 1) Node.executor st =
          runStd gen val sum execRes f Node.generator
            { st with messages := st.messages ++
                [Msg.tool ("Query execution failed with error: " ++ e),
                 Msg.ai ("The query execution failed. Please fix it. Error: Query execution failed with error: " ++ e)] })) ∧
    (∀ js, execRes (f + 1) = ExecOut.success js →
      pyContains js "Query execution failed" = false →
      runStd gen val sum execRes (f + 1) Node.executor st =
        runStd gen val sum execRes f Node.summarizer (executeNode (ExecOut.success js) st)) ∧
    (runStd oGen oValOk oSum oExecFail 10 Node.generator (mkInitState [] "q") =
        Except.ok stdFailFinal ∧
      stdFailFinal.retries = 3 ∧ stdFailFinal.summary = none) := by
  refine ⟨?_, ?_, rfl, rfl, rfl⟩
  · intro e he
    constructor
    · intro hr
      rw [runStd, he]
      simp only [decide_after_execution_fail_ge st e hr]
      rfl
    · intro hr
      rw [runStd, he]
      simp only [decide_after_execution_fail_lt st e hr]
      simp
  · intro js he hm
    rw [runStd, he]
    simp only [decide_after_execution_success st js hm]
    simp

/-- Witness for C4: the failure branches and the success branch of the
post-execution routing, exercised at concrete states. -/
theorem claim_C4_witness :
    runStd oGen oValOk oSum oExecFail 5 Node.executor ⟨[Msg.human "q"], none, 3, none, none⟩ =
      Except.ok (executeNode (ExecOut.failure "connection refused")
        ⟨[Msg.human "q"], none, 3, none, none⟩) ∧
    runStd oGen oValOk oSum oExecOk 5 Node.executor ⟨[Msg.human "q"], none, 0, none, none⟩ =
      runStd oGen oValOk oSum oExecOk 4 Node.summarizer
        (executeNode (ExecOut.success "[]") ⟨[Msg.human "q"], none, 0, none, none⟩) :=
  ⟨((claim_C4_execution_failure_policy oGen oValOk oSum oExecFail 4 _).1
      "connection refused" rfl).1 (by decide),
   (claim_C4_execution_failure_policy oGen oValOk oSum oExecOk 4 _).2.1 "[]" rfl (by decide)⟩

/-- C5: a turn that ends by retry exhaustion (the graph reaches `END`
without a summary having been produced) is surfaced by `run` as an
explicit no-answer result — the fallback apology string together with the
last generated query — and not as a raised exception (`Except.ok`, not
`Except.error`). -/
theorem claim_C5_retry_exhaustion_surfaces_result
    (gen val sum : Nat → String) (execRes : Nat → ExecOut)
    (history : List (String × String)) (q : String) (fs : GraphState)
    (h : runStd gen val sum execRes 10 Node.generator (mkInitState history q) = Except.ok fs)
    (hs : fs.summary = none) :
    runTurn gen val sum execRes history q =
      Except.ok ⟨"I'm sorry, I couldn't process that.", fs.generation,
        history ++ [("user", q), ("agent", "I'm sorry, I couldn't process that.")]⟩ := by
  unfold runTurn
  rw [h]
  simp [hs]

/-- Witness for C5: the three-consecutive-failures turn surfaces the
explicit no-answer result. -/
theorem claim_C5_witness :
    runTurn oGen oValOk oSum oExecFail [] "q" =
      Except.ok ⟨"I'm sorry, I couldn't process that.", some "MATCH (s:Service) RETURN s",
        [("user", "q"), ("agent", "I'm sorry, I couldn't process that.")]⟩ := by
  have h := claim_C5_retry_exhaustion_surfaces_result oGen oValOk oSum oExecFail [] "q"
    stdFailFinal rfl rfl
  simpa using h

/-! ## Symmetry of the similarity methods (claim C6) -/

theorem dotList_comm (a b : List ℝ) : dotList a b = dotList b a := by
  unfold dotList
  exact congrArg List.sum (List.zipWith_comm_of_comm _ mul_comm a b)

theorem l2distSq_comm (a b : List ℝ) : l2distSq a b = l2distSq b a := by
  unfold l2distSq
  refine congrArg List.sum (List.zipWith_comm_of_comm _ ?_ a b)
  intro x y
  ring

theorem l1dist_comm (a b : List ℝ) : l1dist a b = l1dist b a := by
  unfold l1dist
  exact congrArg List.sum (List.zipWith_comm_of_comm _ abs_sub_comm a b)

theorem devDot_comm (a b : List ℝ) : devDot a b = devDot b a := by
  unfold devDot
  rw [List.zipWith_comm]
  have hf : (fun y x => (x - meanR a) * (y - meanR b)) =
      fun x y => (x - meanR b) * (y - meanR a) := by
    funext x y
    ring
  rw [hf]

theorem corrcoef01_comm (a b : List ℝ) : corrcoef01 a b = corrcoef01 b a := by
  unfold corrcoef01
  by_cases h1 : devSq a = 0 <;> by_cases h2 : devSq b = 0 <;>
    simp [h1, h2, devDot_comm a b, mul_comm]

theorem cosineSim_comm (a b : List ℝ) : cosineSim a b = cosineSim b a := by
  unfold cosineSim
  rw [mul_comm (dotList b b) (dotList a a), dotList_comm b a]

theorem euclideanSim_comm (a b : List ℝ) : euclideanSim a b = euclideanSim b a := by
  unfold euclideanSim
  rw [l2distSq_comm b a]

theorem manhattanSim_comm (a b : List ℝ) : manhattanSim a b = manhattanSim b a := by
  unfold manhattanSim
  rw [l1dist_comm b a]

theorem dotProductSim_comm (a b : List ℝ) : dotProductSim a b = dotProductSim b a := by
  unfold dotProductSim
  by_cases h1 : Real.sqrt (dotList a a) = 0 <;> by_cases h2 : Real.sqrt (dotList b b) = 0 <;>
    simp [h1, h2, dotList_comm a b, mul_comm]

theorem pearsonSim_comm (a b : List ℝ) : pearsonSim a b = pearsonSim b a := by
  unfold pearsonSim
  by_cases h1 : npStdIsZero a <;> by_cases h2 : npStdIsZero b <;>
    simp [h1, h2, corrcoef01_comm a b]

theorem spearmanSim_comm (a b : List ℝ) (h : a.length = b.length) :
    spearmanSim a b = spearmanSim b a := by
  unfold spearmanSim
  rw [h, corrcoef01_comm]

theorem jaccardSim_comm (a b : List ℝ) : jaccardSim a b = jaccardSim b a := by
  unfold jaccardSim
  rw [List.zipWith_comm_of_comm and Bool.and_comm (binarize a) (binarize b),
    List.zipWith_comm_of_comm or Bool.or_comm (binarize a) (binarize b)]

theorem hammingSim_comm (a b : List ℝ) : hammingSim a b = hammingSim b a := by
  unfold hammingSim
  rw [List.zipWith_comm_of_comm _ (fun p q => ?_) (binarize a) (binarize b)]
  cases p <;> cases q <;> rfl

/-- C6: every supported similarity method is symmetric; moreover the
whole dispatcher is symmetric in its two vector arguments for *any*
method string (the length-mismatch sentinel and the unknown-method error
are symmetric as well). -/
theorem claim_C6_similarity_symmetric (a b : List ℝ) (m : String) :
    calculate_similarity a b m = calculate_similarity b a m := by
  unfold calculate_similarity
  by_cases hl : a.length = b.length
  · have hl2 : ¬ a.length ≠ b.length := by simp [hl]
    have hl3 : ¬ b.length ≠ a.length := by simp [hl]
    rw [if_neg hl2, if_neg hl3]
    by_cases h1 : m = "cosine"
    · rw [if_pos h1, if_pos h1, cosineSim_comm]
    rw [if_neg h1, if_neg h1]
    by_cases h2 : m = "euclidean"
    · rw [if_pos h2, if_pos h2, euclideanSim_comm]
    rw [if_neg h2, if_neg h2]
    by_cases h3 : m = "manhattan"
    · rw [if_pos h3, if_pos h3, manhattanSim_comm]
    rw [if_neg h3, if_neg h3]
    by_cases h4 : m = "dot_product"
    · rw [if_pos h4, if_pos h4, dotProductSim_comm]
    rw [if_neg h4, if_neg h4]
    by_cases h5 : m = "pearson"
    · rw [if_pos h5, if_pos h5, pearsonSim_comm]
    rw [if_neg h5, if_neg h5]
    by_cases h6 : m = "spearman"
    · rw [if_pos h6, if_pos h6, spearmanSim_comm a b hl]
    rw [if_neg h6, if_neg h6]
    by_cases h7 : m = "jaccard"
    · rw [if_pos h7, if_pos h7, jaccardSim_comm]
    rw [if_neg h7, if_neg h7]
    by_cases h8 : m = "hamming"
    · rw [if_pos h8, if_pos h8, hammingSim_comm]
    rw [if_neg h8, if_neg h8]
  · have hl2 : b.length ≠ a.length := fun hba => hl hba.symm
    rw [if_pos hl, if_pos hl2]

theorem dotList_self_nonneg (v : List ℝ) : 0 ≤ dotList v v := by
  unfold dotList
  rw [List.zipWith_same]
  apply List.sum_nonneg
  intro x hx
  rw [List.mem_map] at hx
  obtain ⟨y, _, rfl⟩ := hx
  exact mul_self_nonneg y

/-- C7 (counterexample to the claim as stated): on the zero-norm pair
`a = [0]`, `b = [1]` the `dot_product` method returns `0.0` while the
`cosine` method (via scipy) produces NaN, so the two methods are not
equal on all equal-length vectors. -/
theorem claim_C7_counterexample :
    calculate_similarity [(0 : ℝ)] [(1 : ℝ)] "dot_product" = Except.ok (some 0) ∧
    calculate_similarity [(0 : ℝ)] [(1 : ℝ)] "cosine" = Except.ok none ∧
    calculate_similarity [(0 : ℝ)] [(1 : ℝ)] "dot_product" ≠
      calculate_similarity [(0 : ℝ)] [(1 : ℝ)] "cosine" := by
  have h1 : calculate_similarity [(0 : ℝ)] [(1 : ℝ)] "dot_product" = Except.ok (some 0) := by
    simp [calculate_similarity, dotProductSim, dotList]
  have h2 : calculate_similarity [(0 : ℝ)] [(1 : ℝ)] "cosine" = Except.ok none := by
    simp [calculate_similarity, cosineSim, dotList]
  refine ⟨h1, h2, ?_⟩
  rw [h1, h2]
  simp

/-- C7 (amended): `dot_product` and `cosine` agree on every pair of
equal-length vectors of nonzero norm; they differ only at zero norm,
where `dot_product` returns `0.0` and `cosine` returns NaN. -/
theorem claim_C7_dot_product_equals_cosine_on_nonzero_norms (a b : List ℝ)
    (hl : a.length = b.length) (ha : dotList a a ≠ 0) (hb : dotList b b ≠ 0) :
    calculate_similarity a b "dot_product" = calculate_similarity a b "cosine" := by
  have ha0 : 0 ≤ dotList a a := dotList_self_nonneg a
  have hb0 : 0 ≤ dotList b b := dotList_self_nonneg b
  have hsa : Real.sqrt (dotList a a) ≠ 0 := by
    rw [Ne, Real.sqrt_eq_zero']
    push_neg
    exact lt_of_le_of_ne ha0 (Ne.symm ha)
  have hsb : Real.sqrt (dotList b b) ≠ 0 := by
    rw [Ne, Real.sqrt_eq_zero']
    push_neg
    exact lt_of_le_of_ne hb0 (Ne.symm hb)
  have hprod : Real.sqrt (dotList a a * dotList b b) =
      Real.sqrt (dotList a a) * Real.sqrt (dotList b b) := Real.sqrt_mul ha0 _
  have hsp : Real.sqrt (dotList a a * dotList b b) ≠ 0 := by
    rw [hprod]
    exact mul_ne_zero hsa hsb
  simp [calculate_similarity, hl]
  unfold dotProductSim cosineSim
  rw [if_neg (by push_neg; exact ⟨hsa, hsb⟩), if_neg hsp, hprod]

/-- Witness for C7 (amended) at the concrete pair `[1]`, `[2]`. -/
theorem claim_C7_witness :
    dotList [(1 : ℝ)] [(1 : ℝ)] ≠ 0 ∧ dotList [(2 : ℝ)] [(2 : ℝ)] ≠ 0 ∧
    calculate_similarity [(1 : ℝ)] [(2 : ℝ)] "dot_product" =
      calculate_similarity [(1 : ℝ)] [(2 : ℝ)] "cosine" := by
  have h1 : dotList [(1 : ℝ)] [(1 : ℝ)] ≠ 0 := by norm_num [dotList]
  have h2 : dotList [(2 : ℝ)] [(2 : ℝ)] ≠ 0 := by norm_num [dotList]
  exact ⟨h1, h2,
    claim_C7_dot_product_equals_cosine_on_nonzero_norms [(1 : ℝ)] [(2 : ℝ)] rfl h1 h2⟩

/-- C10: a method string outside the eight supported ones makes
`calculate_similarity` raise `ValueError` (for equal-length vectors,
which reach the dispatch), in contrast with the length-mismatch failure
path, which returns the sentinel `0.0` even for an unknown method. -/
theorem claim_C10_unknown_method_raises (m : String)
    (hm : m ∉ (["cosine", "euclidean", "manhattan", "dot_product", "pearson",
      "spearman", "jaccard", "hamming"] : List String)) :
    (∀ v1 v2 : List ℝ, v1.length = v2.length →
        calculate_similarity v1 v2 m = Except.error ("Unknown similarity method: " ++ m)) ∧
    (∀ v1 v2 : List ℝ, v1.length ≠ v2.length →
        calculate_similarity v1 v2 m = Except.ok (some 0)) := by
  simp only [List.mem_cons, List.not_mem_nil, or_false] at hm
  push_neg at hm
  obtain ⟨h1, h2, h3, h4, h5, h6, h7, h8⟩ := hm
  constructor
  · intro v1 v2 hl
    unfold calculate_similarity
    rw [if_neg (by simp [hl]), if_neg h1, if_neg h2, if_neg h3, if_neg h4, if_neg h5,
      if_neg h6, if_neg h7, if_neg h8]
  · intro v1 v2 hl
    unfold calculate_similarity
    rw [if_pos hl]

/-- Witness for C10 with the unsupported method string `"chebyshev"`. -/
theorem claim_C10_witness :
    ("chebyshev" ∉ (["cosine", "euclidean", "manhattan", "dot_product", "pearson",
      "spearman", "jaccard", "hamming"] : List String)) ∧
    calculate_similarity [(1 : ℝ)] [(1 : ℝ)] "chebyshev" =
      Except.error ("Unknown similarity method: " ++ "chebyshev") ∧
    calculate_similarity [(1 : ℝ)] [(1 : ℝ), 1] "chebyshev" = Except.ok (some 0) := by
  have hm : "chebyshev" ∉ (["cosine", "euclidean", "manhattan", "dot_product", "pearson",
      "spearman", "jaccard", "hamming"] : List String) := by decide
  exact ⟨hm, (claim_C10_unknown_method_raises "chebyshev" hm).1 _ _ rfl,
    (claim_C10_unknown_method_raises "chebyshev" hm).2 _ _ (by decide)⟩

theorem simLe_total (a b : ExampleMatch) : (simLe a b || simLe b a) = true := by
  unfold simLe
  rcases le_total a.similarity b.similarity with h | h <;> simp [h]

theorem simLe_trans (a b c : ExampleMatch) :
    simLe a b = true → simLe b c = true → simLe a c = true := by
  unfold simLe
  intro h1 h2
  rw [decide_eq_true_eq] at h1 h2 ⊢
  exact le_trans h2 h1

/-- What the accumulation loop produces: every kept match clears the
similarity floor and originates, with its computed similarity, from one
of the scanned rows. -/
theorem simsLoopEx_spec (qe : List ℝ) (minSim : ℝ) (method : String) :
    ∀ rs sims, simsLoopEx qe minSim method rs = Except.ok sims →
      ∀ x ∈ sims, minSim ≤ x.similarity ∧
        ∃ r ∈ rs, x.text_content = r.text_content ∧ x.cypher_query = r.cypher_query ∧
          x.threshold = r.similarity_threshold ∧
          calculate_similarity qe r.embedding_data method = Except.ok (some x.similarity) := by
  intro rs
  induction rs with
  | nil =>
    intro sims h x hx
    rw [simsLoopEx] at h
    obtain rfl := Except.ok.inj h
    cases hx
  | cons r rs ih =>
    intro sims h x hx
    rw [simsLoopEx] at h
    cases hs : calculate_similarity qe r.embedding_data method with
    | error e =>
      rw [hs] at h
      exact Except.noConfusion h
    | ok s =>
      rw [hs] at h
      cases hrest : simsLoopEx qe minSim method rs with
      | error e =>
        rw [hrest] at h
        exact Except.noConfusion h
      | ok rest =>
        rw [hrest] at h
        cases s with
        | none =>
          have h2 : Except.ok rest = Except.ok sims := h
          obtain rfl := Except.ok.inj h2
          rcases ih _ hrest x hx with ⟨h1, r', hr', h2'⟩
          exact ⟨h1, r', List.mem_cons_of_mem _ hr', h2'⟩
        | some v =>
          have h2 : (if minSim ≤ v then
              Except.ok (⟨r.text_content, r.cypher_query, v, r.similarity_threshold⟩ :: rest)
            else Except.ok rest) = Except.ok sims := h
          by_cases hv : minSim ≤ v
          · rw [if_pos hv] at h2
            obtain rfl := Except.ok.inj h2
            rcases List.mem_cons.mp hx with hx1 | hx2
            · subst hx1
              exact ⟨hv, r, List.mem_cons_self r rs, rfl, rfl, rfl, hs⟩
            · rcases ih _ hrest x hx2 with ⟨h1, r', hr', h2'⟩
              exact ⟨h1, r', List.mem_cons_of_mem _ hr', h2'⟩
          · rw [if_neg hv] at h2
            obtain rfl := Except.ok.inj h2
            rcases ih _ hrest x hx with ⟨h1, r', hr', h2'⟩
            exact ⟨h1, r', List.mem_cons_of_mem _ hr', h2'⟩

/-- C8: `find_similar_examples` computes a similarity for every stored
record of the `'example'` category, keeps only those at or above
`min_similarity`, and returns at most `top_k` of them in descending
similarity order; the returned list is a prefix of a stable descending
sort of the candidate list (ties keep stored order), and an empty store
yields `Except.ok []` — never an error — for any method string. -/
theorem claim_C8_retrieve_similar :
    (∀ emb q k s m, find_similar_examples emb [] q k s m = Except.ok []) ∧
    (∀ emb rows q k s m out, find_similar_examples emb rows q k s m = Except.ok out →
      (∀ x ∈ out, s ≤ x.similarity) ∧
      out.length ≤ k ∧
      out.Pairwise (fun x y => y.similarity ≤ x.similarity) ∧
      (∀ x ∈ out, ∃ r ∈ rows, r.text_type = "example" ∧
        x.text_content = r.text_content ∧ x.cypher_query = r.cypher_query ∧
        calculate_similarity (emb q) r.embedding_data m = Except.ok (some x.similarity)) ∧
      (out ≠ [] → ∃ sims,
        simsLoopEx (emb q) s m (rows.filter (fun r => r.text_type == "example")) =
          Except.ok sims ∧
        out = (sims.mergeSort simLe).take k ∧
        (∀ c : List ExampleMatch, c.Sublist sims →
          c.Pairwise (fun x y => y.similarity ≤ x.similarity) →
          c.Sublist (sims.mergeSort simLe)))) := by
  constructor
  · intro emb q k s m
    rfl
  · intro emb rows q k s m out h
    simp only [find_similar_examples] at h
    by_cases h1 : (rows.filter (fun r => r.text_type == "example")).isEmpty
    · rw [if_pos h1] at h
      obtain rfl := Except.ok.inj h
      exact ⟨by simp, by simp, by simp, by simp, by simp⟩
    · rw [if_neg h1] at h
      by_cases h2 : (emb q).isEmpty
      · rw [if_pos h2] at h
        obtain rfl := Except.ok.inj h
        exact ⟨by simp, by simp, by simp, by simp, by simp⟩
      · rw [if_neg h2] at h
        cases hloop : simsLoopEx (emb q) s m
            (rows.filter (fun r => r.text_type == "example")) with
        | error e =>
          rw [hloop] at h
          exact Except.noConfusion h
        | ok sims =>
          rw [hloop] at h
          obtain rfl := Except.ok.inj h
          have hspec := simsLoopEx_spec (emb q) s m _ sims hloop
          have hsorted := List.sorted_mergeSort simLe_trans simLe_total sims
          have hperm := List.mergeSort_perm sims simLe
          have hmemtake : ∀ x ∈ (sims.mergeSort simLe).take k, x ∈ sims := by
            intro x hx
            exact hperm.mem_iff.mp ((List.take_sublist _ _).subset hx)
          refine ⟨?_, ?_, ?_, ?_, ?_⟩
          · intro x hx
            exact (hspec x (hmemtake x hx)).1
          · rw [List.length_take]
            exact min_le_left _ _
          · exact (List.Pairwise.sublist (List.take_sublist _ _) hsorted).imp
              (fun h => of_decide_eq_true h)
          · intro x hx
            rcases hspec x (hmemtake x hx) with ⟨_, r', hr', hc1, hc2, _, hc4⟩
            rw [List.mem_filter] at hr'
            exact ⟨r', hr'.1, eq_of_beq hr'.2, hc1, hc2, hc4⟩
          · intro _
            refine ⟨sims, rfl, rfl, ?_⟩
            intro c hc hcp
            exact List.sublist_mergeSort simLe_trans simLe_total
              (hcp.imp (fun h => decide_eq_true h)) hc

/-- Witness for C8: a one-row store under the `manhattan` method
(similarity `1/2` against the query embedding) and the empty store. -/
theorem claim_C8_witness :
    (∀ x ∈ ([⟨"t", some "c", 1 / 2, 8 / 10⟩] : List ExampleMatch),
      (3 / 10 : ℝ) ≤ x.similarity) ∧
    ([⟨"t", some "c", 1 / 2, 8 / 10⟩] : List ExampleMatch).length ≤ 5 ∧
    find_similar_examples (fun _ => [(1 : ℝ)]) [] "q" 5 (3 / 10) "cosine" = Except.ok [] := by
  have hsim : calculate_similarity [(1 : ℝ)] [(2 : ℝ)] "manhattan" =
      Except.ok (some (1 / 2)) := by
    simp [calculate_similarity, manhattanSim, l1dist]
    norm_num
  have hloop : simsLoopEx [(1 : ℝ)] (3 / 10) "manhattan"
      [⟨"example", "t", some "c", [(2 : ℝ)], 8 / 10⟩] =
      Except.ok [⟨"t", some "c", 1 / 2, 8 / 10⟩] := by
    rw [simsLoopEx, hsim]
    have h2 : (if (3 / 10 : ℝ) ≤ 1 / 2 then
        (Except.ok [⟨"t", some "c", 1 / 2, 8 / 10⟩] : Except String (List ExampleMatch))
      else Except.ok []) = Except.ok [⟨"t", some "c", 1 / 2, 8 / 10⟩] := by
      rw [if_pos (by norm_num)]
    exact h2
  have hfind : find_similar_examples (fun _ => [(1 : ℝ)])
      [⟨"example", "t", some "c", [(2 : ℝ)], 8 / 10⟩] "q" 5 (3 / 10) "manhattan" =
      Except.ok [⟨"t", some "c", 1 / 2, 8 / 10⟩] := by
    simp [find_similar_examples, hloop]
  have hc := claim_C8_retrieve_similar.2 (fun _ => [(1 : ℝ)])
    [⟨"example", "t", some "c", [(2 : ℝ)], 8 / 10⟩] "q" 5 (3 / 10) "manhattan" _ hfind
  exact ⟨hc.1, hc.2.1,
    claim_C8_retrieve_similar.1 (fun _ => [(1 : ℝ)]) "q" 5 (3 / 10) "cosine"⟩

theorem updateCacheRow_of_first (h : String) (now : Nat) :
    ∀ pre r post, (∀ r' ∈ pre, r'.question_hash ≠ h) → r.question_hash = h →
      updateCacheRow h now (pre ++ r :: post) =
        pre ++ { r with access_count := r.access_count + 1, last_accessed := now } :: post := by
  intro pre
  induction pre with
  | nil =>
    intro r post _ hr
    rw [List.nil_append, updateCacheRow, if_pos (beq_iff_eq.mpr hr), List.nil_append]
  | cons p pre ih =>
    intro r post hpre hr
    rw [List.cons_append, updateCacheRow,
      if_neg (by simpa using hpre p (List.mem_cons_self p pre)), List.cons_append,
      ih r post (fun r' hr' => hpre r' (List.mem_cons_of_mem p hr')) hr]

theorem updateCacheRow_map_hash (h : String) (now : Nat) :
    ∀ rows : List CacheRow,
      (updateCacheRow h now rows).map (fun r => r.question_hash) =
        rows.map (fun r => r.question_hash) := by
  intro rows
  induction rows with
  | nil => rfl
  | cons r rs ih =>
    rw [updateCacheRow]
    by_cases hr : r.question_hash == h
    · rw [if_pos hr]
      simp
    · rw [if_neg hr]
      simp [ih]

/-- C9: `cache_query_result` is an upsert keyed by the question hash.
With a working embedding oracle: when no row carries the question's hash,
exactly one new row with `access_count = 1` is appended; when a row with
the hash exists, that row's `access_count` grows by exactly 1 and its
`last_accessed` is refreshed, and no row is added or removed.  A table
with pairwise-distinct hashes keeps them distinct, so any sequence of
upserts starting from the empty table leaves at most one row per
question hash. -/
theorem claim_C9_cache_upsert (pyHash : String → String) (emb : String → List ℝ) :
    (∀ now q c s sc (rows : List CacheRow), emb q ≠ [] →
      (∀ r ∈ rows, r.question_hash ≠ pyHash q) →
      cache_query_result pyHash emb now q c s sc rows =
        (true, rows ++ [⟨pyHash q, q, c, s, emb q, sc, 1, now, now⟩])) ∧
    (∀ now q c s sc pre (r : CacheRow) post, emb q ≠ [] →
      r.question_hash = pyHash q →
      (∀ r' ∈ pre, r'.question_hash ≠ pyHash q) →
      cache_query_result pyHash emb now q c s sc (pre ++ r :: post) =
        (true, pre ++
          { r with access_count := r.access_count + 1, last_accessed := now } :: post)) ∧
    (∀ now q c s sc (rows : List CacheRow),
      ((rows.map (fun r => r.question_hash)).Nodup →
        (((cache_query_result pyHash emb now q c s sc rows).2).map
          (fun r => r.question_hash)).Nodup)) ∧
    (∀ ops : List (Nat × String × String × String × Option ℝ),
      (((ops.foldl (fun t o =>
            (cache_query_result pyHash emb o.1 o.2.1 o.2.2.1 o.2.2.2.1 o.2.2.2.2 t).2)
          ([] : List CacheRow))).map (fun r => r.question_hash)).Nodup) := by
  have insert_case : ∀ now q c s sc (rows : List CacheRow), emb q ≠ [] →
      (∀ r ∈ rows, r.question_hash ≠ pyHash q) →
      cache_query_result pyHash emb now q c s sc rows =
        (true, rows ++ [⟨pyHash q, q, c, s, emb q, sc, 1, now, now⟩]) := by
    intro now q c s sc rows hemb hnone
    have hany : rows.any (fun r => r.question_hash == pyHash q) = false := by
      rw [List.any_eq_false]
      intro r hr
      simp [beq_eq_false_iff_ne.mpr (hnone r hr)]
    simp [cache_query_result, List.isEmpty_eq_false.mpr hemb, hany]
  have update_case : ∀ now q c s sc pre (r : CacheRow) post, emb q ≠ [] →
      r.question_hash = pyHash q →
      (∀ r' ∈ pre, r'.question_hash ≠ pyHash q) →
      cache_query_result pyHash emb now q c s sc (pre ++ r :: post) =
        (true, pre ++
          { r with access_count := r.access_count + 1, last_accessed := now } :: post) := by
    intro now q c s sc pre r post hemb hr hpre
    have hany : (pre ++ r :: post).any (fun x => x.question_hash == pyHash q) = true := by
      rw [List.any_eq_true]
      exact ⟨r, by simp, beq_iff_eq.mpr hr⟩
    have hcq : cache_query_result pyHash emb now q c s sc (pre ++ r :: post) =
        (true, updateCacheRow (pyHash q) now (pre ++ r :: post)) := by
      simp [cache_query_result, List.isEmpty_eq_false.mpr hemb, hany]
    rw [hcq, updateCacheRow_of_first (pyHash q) now pre r post hpre hr]
  have nodup_case : ∀ now q c s sc (rows : List CacheRow),
      ((rows.map (fun r => r.question_hash)).Nodup →
        (((cache_query_result pyHash emb now q c s sc rows).2).map
          (fun r => r.question_hash)).Nodup) := by
    intro now q c s sc rows hnd
    by_cases hemb : (emb q).isEmpty = true
    · have hcq : cache_query_result pyHash emb now q c s sc rows = (false, rows) := by
        simp [cache_query_result, hemb]
      rw [hcq]
      exact hnd
    · by_cases hany : rows.any (fun r => r.question_hash == pyHash q) = true
      · have hcq : cache_query_result pyHash emb now q c s sc rows =
            (true, updateCacheRow (pyHash q) now rows) := by
          simp [cache_query_result, hemb, hany]
        rw [hcq]
        show ((updateCacheRow (pyHash q) now rows).map (fun r => r.question_hash)).Nodup
        rw [updateCacheRow_map_hash]
        exact hnd
      · have hcq : cache_query_result pyHash emb now q c s sc rows =
            (true, rows ++ [⟨pyHash q, q, c, s, emb q, sc, 1, now, now⟩]) := by
          simp [cache_query_result, hemb, hany]
        rw [hcq]
        rw [Bool.not_eq_true, List.any_eq_false] at hany
        show ((rows ++ [(⟨pyHash q, q, c, s, emb q, sc, 1, now, now⟩ : CacheRow)]).map
          (fun r => r.question_hash)).Nodup
        rw [List.map_append, List.nodup_append]
        refine ⟨hnd, by simp, ?_⟩
        simp only [List.map_cons, List.map_nil, List.disjoint_singleton, List.mem_map]
        rintro ⟨r, hr, hrh⟩
        exact absurd (beq_iff_eq.mpr hrh) (fun hb => by simpa [hb] using hany r hr)
  refine ⟨insert_case, update_case, nodup_case, ?_⟩
  intro ops
  suffices hstep : ∀ (t0 : List CacheRow),
      ((t0.map (fun r => r.question_hash)).Nodup →
        (((ops.foldl (fun t o =>
            (cache_query_result pyHash emb o.1 o.2.1 o.2.2.1 o.2.2.2.1 o.2.2.2.2 t).2)
          t0)).map (fun r => r.question_hash)).Nodup) by
    exact hstep [] (by simp)
  induction ops with
  | nil =>
    intro t0 h
    exact h
  | cons o ops ih =>
    intro t0 h
    rw [List.foldl_cons]
    exact ih _ (nodup_case o.1 o.2.1 o.2.2.1 o.2.2.2.1 o.2.2.2.2 t0 h)

/-- Witness for C9: upserting the same question twice (hash oracle `id`,
embedding oracle constant `[1]`) first inserts one row with
`access_count = 1`, then bumps that row to `access_count = 2` and
refreshes `last_accessed` without creating a second row. -/
theorem claim_C9_witness :
    cache_query_result (fun s => s) (fun _ => [(1 : ℝ)]) 5 "q" "c" "a" none [] =
      (true, [⟨"q", "q", "c", "a", [(1 : ℝ)], none, 1, 5, 5⟩]) ∧
    cache_query_result (fun s => s) (fun _ => [(1 : ℝ)]) 7 "q" "c" "a" none
        [⟨"q", "q", "c", "a", [(1 : ℝ)], none, 1, 5, 5⟩] =
      (true, [⟨"q", "q", "c", "a", [(1 : ℝ)], none, 2, 5, 7⟩]) := by
  constructor
  · have h := (claim_C9_cache_upsert (fun s => s) (fun _ => [(1 : ℝ)])).1 5 "q" "c" "a"
      none [] (by simp) (by simp)
    simpa using h
  · have h := (claim_C9_cache_upsert (fun s => s) (fun _ => [(1 : ℝ)])).2.1 7 "q" "c" "a"
      none [] ⟨"q", "q", "c", "a", [(1 : ℝ)], none, 1, 5, 5⟩ [] (by simp) rfl (by simp)
    simpa using h

/-- C1: the enhanced Orchestrator calls `upsert_cache` during `GENERATE`,
not on successful completion.  On a cache-miss turn that completes
successfully, the cache row for the question holds the generated query
and an *empty* answer while the turn's final answer is nonempty — the
final query/answer pair is never attached to the cache, although the
source comments that the summary "Will be filled by summarizer".  And a
turn with persistent execution failures (which ends in a
`GraphRecursionError`, since the enhanced agent never increments
`retries`) still leaves a cache entry for the question. -/
theorem claim_C1_cache_written_at_generate :
    ((runEnh embC pyHashC [] true "cosine" (Except.ok "MATCH (n) RETURN n") oValOk oSum
        oExecOk 10 Node.generator (mkInitE "q") ⟨[], []⟩).1.toOption.map
      (fun s => s.summary)) = some (some "There are no services.") ∧
    ((runEnh embC pyHashC [] true "cosine" (Except.ok "MATCH (n) RETURN n") oValOk oSum
        oExecOk 10 Node.generator (mkInitE "q") ⟨[], []⟩).2.cache.map
      (fun r => (r.question, r.generated_cypher, r.final_summary))) =
      [("q", "MATCH (n) RETURN n", "")] ∧
    ("" : String) ≠ "There are no services." ∧
    ((runEnh embC pyHashC [] true "cosine" (Except.ok "MATCH (n) RETURN n") oValOk oSum
        oExecFail 10 Node.generator (mkInitE "q") ⟨[], []⟩).1 =
      Except.error ERunErr.recursionLimit) ∧
    ((runEnh embC pyHashC [] true "cosine" (Except.ok "MATCH (n) RETURN n") oValOk oSum
        oExecFail 10 Node.generator (mkInitE "q") ⟨[], []⟩).2.cache.map
      (fun r => r.question)) = ["q"] :=
  ⟨rfl, rfl, by decide, rfl, rfl⟩

/-- C2: the *standard* agent's `GENERATE` strips formatting fences from
the oracle's raw text, increments the retry counter by exactly one, and
records the stripped candidate — but the *enhanced* agent's `GENERATE`
does neither: on a cache-miss generation it records the merely
whitespace-stripped response (formatting fences survive) and leaves the
retry counter unchanged (nothing in the enhanced agent ever increments
it, so its own `retries >= 3` check is unreachable). -/
theorem claim_C2_generate_strips_and_increments :
    (∀ raw (st : GraphState), (generateNode raw st).retries = st.retries + 1 ∧
      (generateNode raw st).generation = some (cleanGeneration raw)) ∧
    cleanGeneration "```cypher\nMATCH (n) RETURN n\n```" = "MATCH (n) RETURN n" ∧
    ((enhancedGenerate embC pyHashC [] true "cosine" 9
        (Except.ok "```cypher\nMATCH (n) RETURN n\n```") (mkInitE "q") ⟨[], []⟩).toOption.map
      (fun p => (p.1.retries, p.1.generation))) =
      some (0, some "```cypher\nMATCH (n) RETURN n\n```") :=
  ⟨fun _ _ => ⟨rfl, rfl⟩, by decide, rfl⟩
